import Mathlib

/-!
Verification development for the flower-blog posting automation pipeline.

This file gives a shallow embedding of the repository's core: the domain
entities (`domain/entities.py`), the domain exceptions
(`domain/exceptions.py`), the social publisher service
(`core/services/social_publisher.py`), the concrete platform publishers
(`infrastructure/external/*.py`), the SQLAlchemy repository
(`infrastructure/database/repositories.py`) and the orchestrating Celery
task `process_flower_content` (`workers/tasks.py`).

Python exceptions are modelled with `Except`; the wall clock
(`datetime.now()`) is modelled as a natural-number tick threaded through
the computation; the database is an association list keyed by post id.
External collaborators (the Claude analyzer, the content generators, the
video renderer, the platform publishers) are parameters of the model, so
theorems quantify over their behaviour.
-/

namespace FlowerBlog

/-- `Platform` enum from domain/entities.py. -/
inductive Platform where
  | naver
  | instagram
  | youtube
  deriving DecidableEq, Repr

/-- The `.value` string of a `Platform` member. -/
def Platform.value : Platform → String
  | .naver => "naver"
  | .instagram => "instagram"
  | .youtube => "youtube"

/-- `PostStatus` enum from domain/entities.py. -/
inductive PostStatus where
  | pending
  | processing
  | completed
  | failed
  deriving DecidableEq, Repr

/-- `DomainException` hierarchy from domain/exceptions.py (one constructor
per concrete subclass used by the pipeline). -/
inductive DomainError where
  | imageAnalysisError (msg : String)
  | contentGenerationError (msg : String)
  | mediaProcessingError (msg : String)
  | publishingError (msg : String)
  | repositoryError (msg : String)
  deriving DecidableEq, Repr

/-- `str(e)` for a `DomainException`: its message. -/
def DomainError.message : DomainError → String
  | .imageAnalysisError m => m
  | .contentGenerationError m => m
  | .mediaProcessingError m => m
  | .publishingError m => m
  | .repositoryError m => m

/-- A Python exception as seen by the task's handlers: either a
`DomainException` or some other `Exception`. -/
inductive Exc where
  | domain (e : DomainError)
  | other (msg : String)
  deriving DecidableEq, Repr

/-- `str(e)` of an exception. -/
def Exc.message : Exc → String
  | .domain e => e.message
  | .other m => m

/-- `FlowerData` dataclass from domain/entities.py (the `flower_type`
dict is flattened into its three keys). -/
structure FlowerData where
  flower_type_korean : String
  flower_type_english : String
  flower_type_scientific : String
  colors : List String
  seasonal : String
  meaning : String
  care_tips : String
  decoration_ideas : String
  gift_occasions : List String
  deriving DecidableEq, Repr

/-- `PublishResult` dataclass from domain/entities.py. -/
structure PublishResult where
  success : Bool
  platform : Platform
  url : Option String := none
  postId : Option String := none
  error : Option String := none
  deriving DecidableEq, Repr

/-- `FlowerPost` dataclass from domain/entities.py.  `datetime` fields
are modelled as `Nat` clock ticks. -/
structure FlowerPost where
  id : String
  image_paths : List String
  platforms : List Platform
  title : Option String := none
  description : Option String := none
  schedule_time : Nat := 0
  status : PostStatus := .pending
  error_message : Option String := none
  flower_data : Option FlowerData := none
  blog_content : Option String := none
  instagram_caption : Option String := none
  instagram_tags : Option (List String) := none
  video_path : Option String := none
  publish_results : List PublishResult := []
  created_at : Nat := 0
  updated_at : Nat := 0
  deriving DecidableEq, Repr

/-- `FlowerPost.update_status` (entities.py lines 100-105).  Note the
Python guard `if error_message:` — a `None` or empty-string message does
not overwrite the stored one, and the stored message is never cleared. -/
def FlowerPost.update_status (p : FlowerPost) (status : PostStatus)
    (err : Option String) (now : Nat) : FlowerPost :=
  let p1 := { p with status := status }
  let p2 := match err with
    | none => p1
    | some m => if m = "" then p1 else { p1 with error_message := some m }
  { p2 with updated_at := now }

/-- `FlowerPost.add_publish_result` (entities.py lines 107-110). -/
def FlowerPost.add_publish_result (p : FlowerPost) (r : PublishResult)
    (now : Nat) : FlowerPost :=
  { p with publish_results := p.publish_results ++ [r], updated_at := now }

/-- The database table of posts, keyed by post id. -/
def Store := List (String × FlowerPost)
  deriving DecidableEq, Repr

/-- Row lookup by id. -/
def Store.find : Store → String → Option FlowerPost
  | [], _ => none
  | (k, v) :: rest, i => if k = i then some v else Store.find rest i

/-- Insert-or-overwrite of a row. -/
def Store.set : Store → String → FlowerPost → Store
  | [], i, p => [(i, p)]
  | (k, v) :: rest, i, p =>
      if k = i then (i, p) :: rest else (k, v) :: Store.set rest i p

/-- Row deletion. -/
def Store.erase : Store → String → Store
  | [], _ => []
  | (k, v) :: rest, i =>
      if k = i then rest else (k, v) :: Store.erase rest i

theorem Store.find_set_self (s : Store) (i : String) (p : FlowerPost) :
    Store.find (Store.set s i p) i = some p := by
  induction s with
  | nil => simp [Store.set, Store.find]
  | cons kv rest ih =>
    obtain ⟨k, v⟩ := kv
    by_cases h : k = i
    · simp [Store.set, Store.find, h]
    · simp [Store.set, Store.find, h, ih]

/-- The `content` dict passed to `SocialPublisherService.publish`
(workers/tasks.py builds it; social_publisher.py reads it with `.get`
and defaults). -/
structure ContentBundle where
  title : Option String := none
  blog_content : Option String := none
  image_paths : Option (List String) := none
  instagram_caption : Option String := none
  instagram_tags : Option (List String) := none
  video_path : Option String := none
  description : Option String := none
  tags : Option (List String) := none

/-- `SocialPublisherService` (core/services/social_publisher.py): the
`self.publishers` dict, one optional entry per platform.  Each publisher
method may raise (modelled by `Except Exc`). -/
structure SocialPublisherService where
  naver_publisher :
    Option (String → String → List String → Except Exc PublishResult)
  instagram_publisher :
    Option (String → List String → List String → Except Exc PublishResult)
  youtube_publisher :
    Option (String → String → String → List String → Except Exc PublishResult)

/-- The body of the `try` block of `SocialPublisherService.publish`
(social_publisher.py lines 60-92): registry lookup (raising
`PublishingError` on a missing publisher) followed by the per-platform
dispatch with the `.get`-defaulted content fields. -/
def SocialPublisherService.attempt (svc : SocialPublisherService)
    (platform : Platform) (content : ContentBundle) :
    Except Exc PublishResult :=
  match platform with
  | .naver =>
    match svc.naver_publisher with
    | none => .error (.domain (.publishingError
        ("지원되지 않는 플랫폼입니다: " ++ platform.value)))
    | some pub =>
        pub (content.title.getD "") (content.blog_content.getD "")
          (content.image_paths.getD [])
  | .instagram =>
    match svc.instagram_publisher with
    | none => .error (.domain (.publishingError
        ("지원되지 않는 플랫폼입니다: " ++ platform.value)))
    | some pub =>
        pub (content.instagram_caption.getD "")
          (content.instagram_tags.getD []) (content.image_paths.getD [])
  | .youtube =>
    match svc.youtube_publisher with
    | none => .error (.domain (.publishingError
        ("지원되지 않는 플랫폼입니다: " ++ platform.value)))
    | some pub =>
        pub (content.video_path.getD "") (content.title.getD "")
          (content.description.getD "") (content.tags.getD [])

/-- `SocialPublisherService.publish` (social_publisher.py lines 40-100):
the `try` body above with the blanket `except Exception` that converts
any raised exception into a failed `PublishResult` tagged with the
requested platform.  The return type `PublishResult` (not `Except`)
captures that `publish` never raises past its boundary. -/
def SocialPublisherService.publish (svc : SocialPublisherService)
    (platform : Platform) (content : ContentBundle) : PublishResult :=
  match svc.attempt platform content with
  | .ok r => r
  | .error e =>
      { success := false, platform := platform, url := none,
        postId := none, error := some e.message }

/-- `NaverBlogPublisher.publish_to_naver`
(infrastructure/external/naver_service.py): the selenium flow is an
oracle producing either the published url or an exception; both exits
build a `PublishResult` tagged `Platform.NAVER` (lines 143-158) and the
method itself never raises (blanket `except`). -/
def NaverBlogPublisher.publish_to_naver
    (oracle : String → String → List String → Except Exc String)
    (title content : String) (image_paths : List String) : PublishResult :=
  match oracle title content image_paths with
  | .ok post_url =>
      { success := true, platform := .naver, url := some post_url }
  | .error e =>
      { success := false, platform := .naver, error := some e.message }

/-- `InstagramPublisher.publish_to_instagram`
(infrastructure/external/instagram_service.py): the Graph-API flow is an
oracle producing the created media id or an exception; both exits are
tagged `Platform.INSTAGRAM` (lines 105-117), the success url being
derived from the media id. -/
def InstagramPublisher.publish_to_instagram
    (oracle : String → List String → List String → Except Exc String)
    (caption : String) (hashtags : List String) (image_paths : List String) :
    PublishResult :=
  match oracle caption hashtags image_paths with
  | .ok media_id =>
      { success := true, platform := .instagram,
        url := some ("https://www.instagram.com/p/" ++ media_id),
        postId := some media_id }
  | .error e =>
      { success := false, platform := .instagram, error := some e.message }

/-- `YoutubePublisher.publish_to_youtube`
(infrastructure/external/youtube_service.py): the upload is an oracle
(the shipped code stubs it with a fixed sample id, lines 108-119); both
exits are tagged `Platform.YOUTUBE`. -/
def YoutubePublisher.publish_to_youtube
    (oracle : String → String → String → List String → Except Exc Unit)
    (video_path title description : String) (tags : List String) :
    PublishResult :=
  match oracle video_path title description tags with
  | .ok _ =>
      { success := true, platform := .youtube,
        url := some "https://youtube.com/shorts/sample_video_id",
        postId := some "sample_video_id" }
  | .error e =>
      { success := false, platform := .youtube, error := some e.message }

/-- `get_social_publishers` (app/dependencies.py): the production wiring
registers the three concrete publishers, keyed by their platform. -/
def get_social_publishers
    (noracle : String → String → List String → Except Exc String)
    (ioracle : String → List String → List String → Except Exc String)
    (yoracle : String → String → String → List String → Except Exc Unit) :
    SocialPublisherService :=
  { naver_publisher := some (fun t c i =>
      .ok (NaverBlogPublisher.publish_to_naver noracle t c i)),
    instagram_publisher := some (fun c h i =>
      .ok (InstagramPublisher.publish_to_instagram ioracle c h i)),
    youtube_publisher := some (fun v t d g =>
      .ok (YoutubePublisher.publish_to_youtube yoracle v t d g)) }

/-- A publisher registry whose successful results are tagged with the
publisher's own platform — the invariant every concrete publisher in
infrastructure/external maintains. -/
def WellTagged (svc : SocialPublisherService) : Prop :=
  (∀ f t c i r, svc.naver_publisher = some f → f t c i = .ok r →
      r.platform = .naver) ∧
  (∀ f c h i r, svc.instagram_publisher = some f → f c h i = .ok r →
      r.platform = .instagram) ∧
  (∀ f v t d g r, svc.youtube_publisher = some f → f v t d g = .ok r →
      r.platform = .youtube)

theorem NaverBlogPublisher.naverTag (oracle) (t c : String) (i : List String) :
    (NaverBlogPublisher.publish_to_naver oracle t c i).platform = .naver := by
  unfold NaverBlogPublisher.publish_to_naver
  cases oracle t c i <;> rfl

theorem InstagramPublisher.instagramTag (oracle) (c : String) (h i : List String) :
    (InstagramPublisher.publish_to_instagram oracle c h i).platform
      = .instagram := by
  unfold InstagramPublisher.publish_to_instagram
  cases oracle c h i <;> rfl

theorem YoutubePublisher.youtubeTag (oracle) (v t d : String) (g : List String) :
    (YoutubePublisher.publish_to_youtube oracle v t d g).platform
      = .youtube := by
  unfold YoutubePublisher.publish_to_youtube
  cases oracle v t d g <;> rfl

theorem wellTagged_get_social_publishers (noracle ioracle yoracle) :
    WellTagged (get_social_publishers noracle ioracle yoracle) := by
  refine ⟨?_, ?_, ?_⟩
  · intro f t c i r hf hr
    simp only [get_social_publishers, Option.some.injEq] at hf
    subst hf
    simp only [Except.ok.injEq] at hr
    subst hr
    exact NaverBlogPublisher.naverTag noracle t c i
  · intro f c h i r hf hr
    simp only [get_social_publishers, Option.some.injEq] at hf
    subst hf
    simp only [Except.ok.injEq] at hr
    subst hr
    exact InstagramPublisher.instagramTag ioracle c h i
  · intro f v t d g r hf hr
    simp only [get_social_publishers, Option.some.injEq] at hf
    subst hf
    simp only [Except.ok.injEq] at hr
    subst hr
    exact YoutubePublisher.youtubeTag yoracle v t d g

/-- Under `WellTagged`, `publish` always returns a result tagged with the
requested platform (the error path tags it explicitly; the success path
inherits the publisher's own tag). -/
theorem SocialPublisherService.publish_platform_tag
    (svc : SocialPublisherService) (hw : WellTagged svc)
    (platform : Platform) (content : ContentBundle) :
    (svc.publish platform content).platform = platform := by
  obtain ⟨hn, hi, hy⟩ := hw
  unfold SocialPublisherService.publish SocialPublisherService.attempt
  cases platform with
  | naver =>
    cases hp : svc.naver_publisher with
    | none => rfl
    | some f =>
      cases hr : f (content.title.getD "") (content.blog_content.getD "")
          (content.image_paths.getD []) with
      | ok r => simp only [hr]; exact hn f _ _ _ r hp hr
      | error e => simp only [hr]
  | instagram =>
    cases hp : svc.instagram_publisher with
    | none => rfl
    | some f =>
      cases hr : f (content.instagram_caption.getD "")
          (content.instagram_tags.getD []) (content.image_paths.getD []) with
      | ok r => simp only [hr]; exact hi f _ _ _ r hp hr
      | error e => simp only [hr]
  | youtube =>
    cases hp : svc.youtube_publisher with
    | none => rfl
    | some f =>
      cases hr : f (content.video_path.getD "") (content.title.getD "")
          (content.description.getD "") (content.tags.getD []) with
      | ok r => simp only [hr]; exact hy f _ _ _ _ r hp hr
      | error e => simp only [hr]

/-- The collaborators of `process_flower_content` (workers/tasks.py):
analyzer, content generator, video generator and publisher registry, each
modelled as a function that may raise.  `find_fault` injects a database
failure into `repository.find_by_id` (repositories.py raises
`RepositoryError` on any query error); `repository.update` is modelled
concretely on the in-memory store below. -/
structure Env where
  analyze : String → Except Exc FlowerData
  gen_blog : FlowerData → List String → Except Exc String
  gen_caption : FlowerData → Except Exc String
  gen_tags : FlowerData → Except Exc (List String)
  render_video : List String → FlowerData → String → Except Exc Unit
  svc : SocialPublisherService
  find_fault : Option Exc

/-- `repository.update(post)` as seen by the task: writes the row with
the post's id, raising the wrapped `RepositoryError` of
repositories.py lines 131-147 when no row with that id exists. -/
def repoUpdate (store : Store) (p : FlowerPost) : Except Exc Store :=
  match Store.find store p.id with
  | none => .error (.domain (.repositoryError
      ("포스트 업데이트 중 오류가 발생했습니다: 업데이트할 포스트를 찾을 수 없습니다: " ++ p.id)))
  | some _ => .ok (Store.set store p.id p)

/-- Observable trace of one task run: the evolving store, the clock, the
post snapshots handed to every successful `repository.update`, the images
handed to the analyzer, and the platforms handed to
`social_publishers.publish`. -/
structure Trace where
  store : Store
  clock : Nat
  writes : List FlowerPost
  analyzeCalls : List String
  pubCalls : List Platform

/-- State of the per-platform loop: the (mutated) `post` local, the
`results` dict accumulated by the task, and the trace. -/
structure LoopState where
  post : FlowerPost
  results : List (String × PublishResult)
  tr : Trace

/-- Exit of one loop iteration (or of the whole loop): either the next
state, or a raised exception together with the state at the raise
point (the `post` local keeps its mutations). -/
inductive LoopOut where
  | done (st : LoopState)
  | fail (e : Exc) (st : LoopState)

/-- `title = post.title or default`: Python `or` falls through on `None`
and on the empty string. -/
def pyOr (a : Option String) (b : String) : String :=
  match a with
  | some s => if s = "" then b else s
  | none => b

/-- The `Platform.NAVER` branch of the loop (tasks.py lines 69-89):
generate the blog post, store it, publish, append the result, store. -/
def stepNaver (env : Env) (fd : FlowerData) (st : LoopState) : LoopOut :=
  match env.gen_blog fd st.post.image_paths with
  | .error e => .fail e st
  | .ok blog =>
    let post1 := { st.post with blog_content := some blog }
    match repoUpdate st.tr.store post1 with
    | .error e => .fail e { st with post := post1 }
    | .ok store1 =>
      let tr1 := { st.tr with
        store := store1
        writes := st.tr.writes ++ [post1] }
      let title := pyOr post1.title
        (fd.flower_type_korean ++ " - " ++ fd.meaning)
      let r := env.svc.publish Platform.naver
        { title := some title
          blog_content := some blog
          image_paths := some post1.image_paths }
      let tr2 := { tr1 with pubCalls := tr1.pubCalls ++ [Platform.naver] }
      let post2 := post1.add_publish_result r tr2.clock
      let tr3 := { tr2 with clock := tr2.clock + 1 }
      match repoUpdate tr3.store post2 with
      | .error e => .fail e { post := post2, results := st.results, tr := tr3 }
      | .ok store2 =>
          .done { post := post2,
                  results := st.results ++ [("naver", r)],
                  tr := { tr3 with
                    store := store2
                    writes := tr3.writes ++ [post2] } }

/-- The `Platform.INSTAGRAM` branch (tasks.py lines 91-112). -/
def stepInstagram (env : Env) (fd : FlowerData) (st : LoopState) : LoopOut :=
  match env.gen_caption fd with
  | .error e => .fail e st
  | .ok caption =>
    match env.gen_tags fd with
    | .error e => .fail e st
    | .ok hashtags =>
      let post1 := { st.post with
        instagram_caption := some caption
        instagram_tags := some hashtags }
      match repoUpdate st.tr.store post1 with
      | .error e => .fail e { st with post := post1 }
      | .ok store1 =>
        let tr1 := { st.tr with
          store := store1
          writes := st.tr.writes ++ [post1] }
        let r := env.svc.publish Platform.instagram
          { instagram_caption := some caption
            instagram_tags := some hashtags
            image_paths := some post1.image_paths }
        let tr2 := { tr1 with pubCalls := tr1.pubCalls ++ [Platform.instagram] }
        let post2 := post1.add_publish_result r tr2.clock
        let tr3 := { tr2 with clock := tr2.clock + 1 }
        match repoUpdate tr3.store post2 with
        | .error e =>
            .fail e { post := post2, results := st.results, tr := tr3 }
        | .ok store2 =>
            .done { post := post2,
                    results := st.results ++ [("instagram", r)],
                    tr := { tr3 with
                      store := store2
                      writes := tr3.writes ++ [post2] } }

/-- The `Platform.YOUTUBE` branch (tasks.py lines 114-140): render the
shorts video, store the path, generate tags, publish, append, store. -/
def stepYoutube (env : Env) (pid : String) (fd : FlowerData)
    (st : LoopState) : LoopOut :=
  let video_path := "uploads/" ++ pid ++ "/shorts_video.mp4"
  match env.render_video st.post.image_paths fd video_path with
  | .error e => .fail e st
  | .ok _ =>
    let post1 := { st.post with video_path := some video_path }
    match repoUpdate st.tr.store post1 with
    | .error e => .fail e { st with post := post1 }
    | .ok store1 =>
      let tr1 := { st.tr with
        store := store1
        writes := st.tr.writes ++ [post1] }
      let title := pyOr post1.title
        (fd.flower_type_korean ++ " - " ++ fd.flower_type_english)
      let descr := fd.flower_type_korean ++ " (" ++ fd.flower_type_english
        ++ ") - " ++ fd.meaning ++ "\n\n#꽃 #플라워 #쇼츠"
      match env.gen_tags fd with
      | .error e => .fail e { st with post := post1, tr := tr1 }
      | .ok tags =>
        let r := env.svc.publish Platform.youtube
          { video_path := some video_path
            title := some title
            description := some descr
            tags := some tags }
        let tr2 := { tr1 with pubCalls := tr1.pubCalls ++ [Platform.youtube] }
        let post2 := post1.add_publish_result r tr2.clock
        let tr3 := { tr2 with clock := tr2.clock + 1 }
        match repoUpdate tr3.store post2 with
        | .error e =>
            .fail e { post := post2, results := st.results, tr := tr3 }
        | .ok store2 =>
            .done { post := post2,
                    results := st.results ++ [("youtube", r)],
                    tr := { tr3 with
                      store := store2
                      writes := tr3.writes ++ [post2] } }

/-- One iteration of `for platform in post.platforms` (tasks.py 68-140). -/
def platformStep (env : Env) (pid : String) (fd : FlowerData)
    (platform : Platform) (st : LoopState) : LoopOut :=
  match platform with
  | .naver => stepNaver env fd st
  | .instagram => stepInstagram env fd st
  | .youtube => stepYoutube env pid fd st

/-- The whole per-platform loop; an exception raised in any iteration
aborts the remaining iterations (there is no try/except inside the loop
body in tasks.py). -/
def platformLoop (env : Env) (pid : String) (fd : FlowerData) :
    List Platform → LoopState → LoopOut
  | [], st => .done st
  | p :: ps, st =>
    match platformStep env pid fd p st with
    | .fail e st1 => .fail e st1
    | .done st1 => platformLoop env pid fd ps st1

/-- The value the task returns to Celery (the Python result dict). -/
structure TaskResult where
  success : Bool
  error : Option String := none
  post_id : Option String := none
  results : List (String × PublishResult) := []
  deriving DecidableEq, Repr

/-- Exit of the `try` block of `process_flower_content`: a returned
value, or a raised exception together with the value of the `post`
local at the raise point (`none` = still unbound). -/
inductive TryOut where
  | ok (r : TaskResult) (tr : Trace)
  | err (e : Exc) (post : Option FlowerPost) (tr : Trace)

/-- How `process_flower_content` finishes the `try` block after the
per-platform loop (tasks.py lines 142-147): an exception escaping the
loop propagates; a completed loop marks the post completed and persists
it, returning the success dict. -/
def finishRun (pid : String) (out : LoopOut) : TryOut :=
  match out with
  | .fail e st => .err e (some st.post) st.tr
  | .done st =>
    let postF := st.post.update_status .completed none st.tr.clock
    let clockF := st.tr.clock + 1
    match repoUpdate st.tr.store postF with
    | .error e => .err e (some postF) { st.tr with clock := clockF }
    | .ok storeF =>
        .ok { success := true, post_id := some pid, results := st.results }
           { st.tr with
             store := storeF
             clock := clockF
             writes := st.tr.writes ++ [postF] }

/-- The `try` block of `process_flower_content` (tasks.py lines 47-147):
load, move to processing, analyze the first image, persist attributes,
run the per-platform loop, mark completed. -/
def tryBody (env : Env) (store : Store) (clock : Nat) (post_id : String) :
    TryOut :=
  let tr0 : Trace := { store := store, clock := clock, writes := [],
                       analyzeCalls := [], pubCalls := [] }
  match env.find_fault with
  | some e => .err e none tr0
  | none =>
    match Store.find store post_id with
    | none => .ok { success := false, error := some "Post not found" } tr0
    | some post0 =>
      let post1 := post0.update_status .processing none clock
      let clock1 := clock + 1
      match repoUpdate store post1 with
      | .error e => .err e (some post1) { tr0 with clock := clock1 }
      | .ok store1 =>
        let tr1 : Trace := { store := store1, clock := clock1,
                             writes := [post1], analyzeCalls := [],
                             pubCalls := [] }
        match post1.image_paths with
        | [] => .err (.other "list index out of range") (some post1) tr1
        | main_image :: _ =>
          let tr2 := { tr1 with analyzeCalls := [main_image] }
          match env.analyze main_image with
          | .error e => .err e (some post1) tr2
          | .ok fd =>
            let post2 := { post1 with flower_data := some fd }
            match repoUpdate tr2.store post2 with
            | .error e => .err e (some post2) tr2
            | .ok store2 =>
              let tr3 := { tr2 with
                store := store2
                writes := tr2.writes ++ [post2] }
              finishRun post_id
                (platformLoop env post_id fd post2.platforms
                  { post := post2, results := [], tr := tr3 })

/-- How one run of the task ends: a value returned to Celery, or an
exception escaping the task (e.g. one raised inside an `except` block). -/
inductive RunOutcome where
  | returned (r : TaskResult)
  | crashed (msg : String)
  deriving DecidableEq, Repr

/-- Result of a whole run: the outcome plus the observable trace. -/
structure RunResult where
  outcome : RunOutcome
  tr : Trace

/-- `process_flower_content` (tasks.py lines 24-162): the `try` block
above plus the two identical exception handlers.  A handler evaluates
`post.update_status(...)`; when the exception was raised before `post`
was bound (line 49 itself raised), the handler hits Python's
`UnboundLocalError`, which escapes the task, so no failed-status write
happens.  A handler whose own `repository.update` raises also escapes. -/
def process_flower_content (env : Env) (store : Store) (clock : Nat)
    (post_id : String) : RunResult :=
  match tryBody env store clock post_id with
  | .ok r tr => { outcome := .returned r, tr := tr }
  | .err e postOpt tr =>
    match postOpt with
    | none =>
        { outcome := .crashed "UnboundLocalError: post referenced before assignment",
          tr := tr }
    | some post =>
      let postF := post.update_status .failed (some e.message) tr.clock
      let clockF := tr.clock + 1
      match repoUpdate tr.store postF with
      | .ok storeF =>
          { outcome := .returned { success := false, error := some e.message },
            tr := { tr with
              store := storeF
              clock := clockF
              writes := tr.writes ++ [postF] } }
      | .error e2 =>
          { outcome := .crashed e2.message,
            tr := { tr with clock := clockF } }

/-- A SQLAlchemy session as the repository sees it: the committed
database plus the session's working view (pending changes included).
`rollback` discards the pending changes; `commit` makes them durable. -/
structure DbSession where
  committed : Store
  pending : Store
  deriving DecidableEq, Repr

/-- Failure injection for the three database round trips a repository
method performs. -/
structure DbFaults where
  queryFault : Bool
  commitFault : Bool
  refreshFault : Bool
  deriving DecidableEq, Repr

/-- `session.rollback()`. -/
def DbSession.rollback (db : DbSession) : DbSession :=
  { db with pending := db.committed }

/-- `session.commit()`: durable on success, raising on failure. -/
def DbSession.commitOp (db : DbSession) (f : DbFaults) :
    Except Exc DbSession :=
  if f.commitFault then .error (.other "commit failed")
  else .ok { db with committed := db.pending }

/-- `session.query(...).filter(id).first()`: reads the session view. -/
def DbSession.queryFirst (db : DbSession) (f : DbFaults) (i : String) :
    Except Exc (Option FlowerPost) :=
  if f.queryFault then .error (.other "query failed")
  else .ok (Store.find db.pending i)

/-- `session.refresh(obj)`: a read-back that can itself raise. -/
def DbSession.refreshOp (db : DbSession) (f : DbFaults) :
    Except Exc Unit :=
  if f.refreshFault then .error (.other "refresh failed") else .ok ()

/-- Wrap a caught exception into the `RepositoryError` a repository
method raises after rolling back. -/
def repoErr (prefixMsg : String) (e : Exc) : Exc :=
  .domain (.repositoryError (prefixMsg ++ e.message))

/-- `SQLAlchemyPostRepository.save` (repositories.py lines 92-114):
add, commit, refresh, map back; any exception triggers rollback and a
wrapped `RepositoryError`. -/
def SQLAlchemyPostRepository.save (db : DbSession) (f : DbFaults)
    (post : FlowerPost) : Except Exc FlowerPost × DbSession :=
  let db1 : DbSession := { db with pending := Store.set db.pending post.id post }
  match db1.commitOp f with
  | .error e =>
      (.error (repoErr "포스트 저장 중 오류가 발생했습니다: " e), db1.rollback)
  | .ok db2 =>
    match db2.refreshOp f with
    | .error e =>
        (.error (repoErr "포스트 저장 중 오류가 발생했습니다: " e), db2.rollback)
    | .ok _ => (.ok post, db2)

/-- `SQLAlchemyPostRepository.update` (repositories.py lines 116-147):
query the row (raising `RepositoryError` when absent), overwrite its
attributes, commit, refresh; any exception — the not-found raise
included — triggers rollback and a wrapped `RepositoryError`. -/
def SQLAlchemyPostRepository.update (db : DbSession) (f : DbFaults)
    (post : FlowerPost) : Except Exc FlowerPost × DbSession :=
  match db.queryFirst f post.id with
  | .error e =>
      (.error (repoErr "포스트 업데이트 중 오류가 발생했습니다: " e), db.rollback)
  | .ok none =>
      (.error (.domain (.repositoryError
        ("포스트 업데이트 중 오류가 발생했습니다: 업데이트할 포스트를 찾을 수 없습니다: " ++ post.id))),
       db.rollback)
  | .ok (some _) =>
    let db1 : DbSession := { db with pending := Store.set db.pending post.id post }
    match db1.commitOp f with
    | .error e =>
        (.error (repoErr "포스트 업데이트 중 오류가 발생했습니다: " e), db1.rollback)
    | .ok db2 =>
      match db2.refreshOp f with
      | .error e =>
          (.error (repoErr "포스트 업데이트 중 오류가 발생했습니다: " e), db2.rollback)
      | .ok _ => (.ok post, db2)

/-- `SQLAlchemyPostRepository.delete` (repositories.py lines 149-173):
query, delete, commit (no refresh); `False` when the row is absent; any
exception triggers rollback and a wrapped `RepositoryError`. -/
def SQLAlchemyPostRepository.delete (db : DbSession) (f : DbFaults)
    (post_id : String) : Except Exc Bool × DbSession :=
  match db.queryFirst f post_id with
  | .error e =>
      (.error (repoErr "포스트 삭제 중 오류가 발생했습니다: " e), db.rollback)
  | .ok none => (.ok false, db)
  | .ok (some _) =>
    let db1 : DbSession := { db with pending := Store.erase db.pending post_id }
    match db1.commitOp f with
    | .error e =>
        (.error (repoErr "포스트 삭제 중 오류가 발생했습니다: " e), db1.rollback)
    | .ok db2 => (.ok true, db2)

/-- `True` when an `Except` is an `error`. -/
def isError {e a : Type} : Except e a → Bool
  | .error _ => true
  | .ok _ => false

section Helpers

/-- `update_status` only touches `status`, `error_message`, `updated_at`. -/
theorem update_status_id (p : FlowerPost) (s : PostStatus)
    (err : Option String) (now : Nat) :
    (p.update_status s err now).id = p.id := by
  unfold FlowerPost.update_status
  cases err with
  | none => rfl
  | some m => by_cases h : m = "" <;> simp [h]

theorem update_status_created_at (p : FlowerPost) (s : PostStatus)
    (err : Option String) (now : Nat) :
    (p.update_status s err now).created_at = p.created_at := by
  unfold FlowerPost.update_status
  cases err with
  | none => rfl
  | some m => by_cases h : m = "" <;> simp [h]

theorem update_status_image_paths (p : FlowerPost) (s : PostStatus)
    (err : Option String) (now : Nat) :
    (p.update_status s err now).image_paths = p.image_paths := by
  unfold FlowerPost.update_status
  cases err with
  | none => rfl
  | some m => by_cases h : m = "" <;> simp [h]

theorem update_status_platforms (p : FlowerPost) (s : PostStatus)
    (err : Option String) (now : Nat) :
    (p.update_status s err now).platforms = p.platforms := by
  unfold FlowerPost.update_status
  cases err with
  | none => rfl
  | some m => by_cases h : m = "" <;> simp [h]

theorem update_status_publish_results (p : FlowerPost) (s : PostStatus)
    (err : Option String) (now : Nat) :
    (p.update_status s err now).publish_results = p.publish_results := by
  unfold FlowerPost.update_status
  cases err with
  | none => rfl
  | some m => by_cases h : m = "" <;> simp [h]

theorem update_status_flower_data (p : FlowerPost) (s : PostStatus)
    (err : Option String) (now : Nat) :
    (p.update_status s err now).flower_data = p.flower_data := by
  unfold FlowerPost.update_status
  cases err with
  | none => rfl
  | some m => by_cases h : m = "" <;> simp [h]

theorem update_status_blog_content (p : FlowerPost) (s : PostStatus)
    (err : Option String) (now : Nat) :
    (p.update_status s err now).blog_content = p.blog_content := by
  unfold FlowerPost.update_status
  cases err with
  | none => rfl
  | some m => by_cases h : m = "" <;> simp [h]

theorem update_status_title (p : FlowerPost) (s : PostStatus)
    (err : Option String) (now : Nat) :
    (p.update_status s err now).title = p.title := by
  unfold FlowerPost.update_status
  cases err with
  | none => rfl
  | some m => by_cases h : m = "" <;> simp [h]

theorem update_status_status (p : FlowerPost) (s : PostStatus)
    (err : Option String) (now : Nat) :
    (p.update_status s err now).status = s := by
  unfold FlowerPost.update_status
  cases err with
  | none => rfl
  | some m => by_cases h : m = "" <;> simp [h]

theorem update_status_updated_at (p : FlowerPost) (s : PostStatus)
    (err : Option String) (now : Nat) :
    (p.update_status s err now).updated_at = now := by
  unfold FlowerPost.update_status
  cases err with
  | none => rfl
  | some m => by_cases h : m = "" <;> simp [h]

theorem update_status_error_message_none (p : FlowerPost) (s : PostStatus)
    (now : Nat) :
    (p.update_status s none now).error_message = p.error_message := rfl

theorem update_status_error_message_some (p : FlowerPost) (s : PostStatus)
    (m : String) (now : Nat) (hm : m ≠ "") :
    (p.update_status s (some m) now).error_message = some m := by
  unfold FlowerPost.update_status
  simp [hm]

/-- `update_status` never clears a stored error message: the result's
message is the old one or the (nonempty) new one. -/
theorem update_status_error_message_cases (p : FlowerPost) (s : PostStatus)
    (err : Option String) (now : Nat) :
    (p.update_status s err now).error_message = p.error_message ∨
      (p.update_status s err now).error_message = err := by
  unfold FlowerPost.update_status
  cases err with
  | none => exact Or.inl rfl
  | some m => by_cases h : m = "" <;> simp [h]

theorem add_publish_result_fields (p : FlowerPost) (r : PublishResult)
    (now : Nat) :
    (p.add_publish_result r now).id = p.id ∧
    (p.add_publish_result r now).status = p.status ∧
    (p.add_publish_result r now).created_at = p.created_at ∧
    (p.add_publish_result r now).error_message = p.error_message ∧
    (p.add_publish_result r now).platforms = p.platforms ∧
    (p.add_publish_result r now).image_paths = p.image_paths ∧
    (p.add_publish_result r now).title = p.title ∧
    (p.add_publish_result r now).publish_results
      = p.publish_results ++ [r] ∧
    (p.add_publish_result r now).updated_at = now := by
  unfold FlowerPost.add_publish_result
  exact ⟨rfl, rfl, rfl, rfl, rfl, rfl, rfl, rfl, rfl⟩

/-- `repository.update` succeeds exactly on an existing id. -/
theorem repoUpdate_of_find (store : Store) (p q : FlowerPost)
    (h : Store.find store p.id = some q) :
    repoUpdate store p = .ok (Store.set store p.id p) := by
  unfold repoUpdate
  rw [h]

end Helpers

section LoopLemmas

/-- Fields of the `post` local that no loop iteration ever changes. -/
def preservesCore (a b : FlowerPost) : Prop :=
  b.id = a.id ∧ b.status = a.status ∧ b.created_at = a.created_at ∧
  b.error_message = a.error_message ∧ b.platforms = a.platforms ∧
  b.image_paths = a.image_paths ∧ b.title = a.title

/-- A post snapshot written during the loop agrees with the loop entry
post on the fields the loop never mutates. -/
def newWriteOk (base w : FlowerPost) : Prop :=
  w.id = base.id ∧ w.created_at = base.created_at ∧
  w.error_message = base.error_message ∧ w.status = base.status

/-- What any number of loop iterations preserves, whether they complete
or raise. -/
def loopPres (st st1 : LoopState) : Prop :=
  preservesCore st.post st1.post ∧
  st1.tr.analyzeCalls = st.tr.analyzeCalls ∧
  ∀ w ∈ st1.tr.writes, w ∈ st.tr.writes ∨ newWriteOk st.post w

/-- The state a loop exit carries (the `post` local at that point). -/
def LoopOut.state : LoopOut → LoopState
  | .done st => st
  | .fail _ st => st

theorem loopPres_rfl (st : LoopState) : loopPres st st :=
  ⟨⟨rfl, rfl, rfl, rfl, rfl, rfl, rfl⟩, rfl, fun _ hw => Or.inl hw⟩

theorem loopPres_trans {a b c : LoopState}
    (h1 : loopPres a b) (h2 : loopPres b c) : loopPres a c := by
  obtain ⟨⟨i1, s1, c1, e1, p1, m1, t1⟩, a1, w1⟩ := h1
  obtain ⟨⟨i2, s2, c2, e2, p2, m2, t2⟩, a2, w2⟩ := h2
  refine ⟨⟨i2.trans i1, s2.trans s1, c2.trans c1, e2.trans e1,
    p2.trans p1, m2.trans m1, t2.trans t1⟩, a2.trans a1, ?_⟩
  intro w hw
  rcases w2 w hw with h | ⟨hi, hc, he, hs⟩
  · exact w1 w h
  · exact Or.inr ⟨hi.trans i1, hc.trans c1, he.trans e1, hs.trans s1⟩

theorem writes_extend_one {ws : List FlowerPost} {base p w : FlowerPost}
    (hw : w ∈ ws ++ [p]) (hp : newWriteOk base p) :
    w ∈ ws ∨ newWriteOk base w := by
  rcases List.mem_append.mp hw with h | h
  · exact Or.inl h
  · rw [List.mem_singleton] at h
    subst h
    exact Or.inr hp

theorem writes_extend_two {ws : List FlowerPost} {base p q w : FlowerPost}
    (hw : w ∈ (ws ++ [p]) ++ [q])
    (hp : newWriteOk base p) (hq : newWriteOk base q) :
    w ∈ ws ∨ newWriteOk base w := by
  rcases List.mem_append.mp hw with h | h
  · exact writes_extend_one h hp
  · rw [List.mem_singleton] at h
    subst h
    exact Or.inr hq

theorem stepNaver_pres (env : Env) (fd : FlowerData) (st : LoopState) :
    loopPres st (stepNaver env fd st).state := by
  unfold stepNaver
  dsimp only
  repeat' split
  all_goals
    first
    | exact loopPres_rfl st
    | exact ⟨⟨rfl, rfl, rfl, rfl, rfl, rfl, rfl⟩, rfl,
        fun _ hw => Or.inl hw⟩
    | exact ⟨⟨rfl, rfl, rfl, rfl, rfl, rfl, rfl⟩, rfl,
        fun _ hw => writes_extend_one hw ⟨rfl, rfl, rfl, rfl⟩⟩
    | exact ⟨⟨rfl, rfl, rfl, rfl, rfl, rfl, rfl⟩, rfl,
        fun _ hw => writes_extend_two hw ⟨rfl, rfl, rfl, rfl⟩
          ⟨rfl, rfl, rfl, rfl⟩⟩

theorem stepInstagram_pres (env : Env) (fd : FlowerData) (st : LoopState) :
    loopPres st (stepInstagram env fd st).state := by
  unfold stepInstagram
  dsimp only
  repeat' split
  all_goals
    first
    | exact loopPres_rfl st
    | exact ⟨⟨rfl, rfl, rfl, rfl, rfl, rfl, rfl⟩, rfl,
        fun _ hw => Or.inl hw⟩
    | exact ⟨⟨rfl, rfl, rfl, rfl, rfl, rfl, rfl⟩, rfl,
        fun _ hw => writes_extend_one hw ⟨rfl, rfl, rfl, rfl⟩⟩
    | exact ⟨⟨rfl, rfl, rfl, rfl, rfl, rfl, rfl⟩, rfl,
        fun _ hw => writes_extend_two hw ⟨rfl, rfl, rfl, rfl⟩
          ⟨rfl, rfl, rfl, rfl⟩⟩

theorem stepYoutube_pres (env : Env) (pid : String) (fd : FlowerData)
    (st : LoopState) :
    loopPres st (stepYoutube env pid fd st).state := by
  unfold stepYoutube
  dsimp only
  repeat' split
  all_goals
    first
    | exact loopPres_rfl st
    | exact ⟨⟨rfl, rfl, rfl, rfl, rfl, rfl, rfl⟩, rfl,
        fun _ hw => Or.inl hw⟩
    | exact ⟨⟨rfl, rfl, rfl, rfl, rfl, rfl, rfl⟩, rfl,
        fun _ hw => writes_extend_one hw ⟨rfl, rfl, rfl, rfl⟩⟩
    | exact ⟨⟨rfl, rfl, rfl, rfl, rfl, rfl, rfl⟩, rfl,
        fun _ hw => writes_extend_two hw ⟨rfl, rfl, rfl, rfl⟩
          ⟨rfl, rfl, rfl, rfl⟩⟩

theorem platformStep_pres (env : Env) (pid : String) (fd : FlowerData)
    (p : Platform) (st : LoopState) :
    loopPres st (platformStep env pid fd p st).state := by
  cases p with
  | naver => exact stepNaver_pres env fd st
  | instagram => exact stepInstagram_pres env fd st
  | youtube => exact stepYoutube_pres env pid fd st

theorem platformLoop_pres (env : Env) (pid : String) (fd : FlowerData) :
    ∀ (ps : List Platform) (st : LoopState),
      loopPres st ((platformLoop env pid fd ps st).state)
  | [], st => loopPres_rfl st
  | p :: ps, st => by
    unfold platformLoop
    cases h : platformStep env pid fd p st with
    | fail e st1 =>
      have h1 := platformStep_pres env pid fd p st
      rw [h] at h1
      exact h1
    | done st1 =>
      have h1 := platformStep_pres env pid fd p st
      rw [h] at h1
      exact loopPres_trans h1 (platformLoop_pres env pid fd ps st1)

theorem stepNaver_done_results (env : Env) (fd : FlowerData)
    (st st' : LoopState) (hw : WellTagged env.svc)
    (h : stepNaver env fd st = .done st') :
    ∃ r, st'.post.publish_results = st.post.publish_results ++ [r] ∧
      r.platform = .naver := by
  unfold stepNaver at h
  dsimp only at h
  repeat' split at h
  all_goals cases h
  all_goals
    exact ⟨_, rfl, SocialPublisherService.publish_platform_tag _ hw _ _⟩

theorem stepInstagram_done_results (env : Env) (fd : FlowerData)
    (st st' : LoopState) (hw : WellTagged env.svc)
    (h : stepInstagram env fd st = .done st') :
    ∃ r, st'.post.publish_results = st.post.publish_results ++ [r] ∧
      r.platform = .instagram := by
  unfold stepInstagram at h
  dsimp only at h
  repeat' split at h
  all_goals cases h
  all_goals
    exact ⟨_, rfl, SocialPublisherService.publish_platform_tag _ hw _ _⟩

theorem stepYoutube_done_results (env : Env) (pid : String)
    (fd : FlowerData) (st st' : LoopState) (hw : WellTagged env.svc)
    (h : stepYoutube env pid fd st = .done st') :
    ∃ r, st'.post.publish_results = st.post.publish_results ++ [r] ∧
      r.platform = .youtube := by
  unfold stepYoutube at h
  dsimp only at h
  repeat' split at h
  all_goals cases h
  all_goals
    exact ⟨_, rfl, SocialPublisherService.publish_platform_tag _ hw _ _⟩

theorem platformStep_done_results (env : Env) (pid : String)
    (fd : FlowerData) (p : Platform) (st st' : LoopState)
    (hw : WellTagged env.svc)
    (h : platformStep env pid fd p st = .done st') :
    ∃ r, st'.post.publish_results = st.post.publish_results ++ [r] ∧
      r.platform = p := by
  cases p with
  | naver => exact stepNaver_done_results env fd st st' hw h
  | instagram => exact stepInstagram_done_results env fd st st' hw h
  | youtube => exact stepYoutube_done_results env pid fd st st' hw h

/-- When the loop completes, it has appended exactly one outcome per
iterated platform, in iteration order, each tagged with its platform. -/
theorem platformLoop_done_results (env : Env) (pid : String)
    (fd : FlowerData) (hw : WellTagged env.svc) :
    ∀ (ps : List Platform) (st st' : LoopState),
      platformLoop env pid fd ps st = .done st' →
      ∃ l, st'.post.publish_results = st.post.publish_results ++ l ∧
        l.map (fun r => r.platform) = ps
  | [], st, st', h => by
    unfold platformLoop at h
    cases h
    exact ⟨[], by simp, rfl⟩
  | p :: ps, st, st', h => by
    unfold platformLoop at h
    cases hs : platformStep env pid fd p st with
    | fail e st1 => rw [hs] at h; cases h
    | done st1 =>
      rw [hs] at h
      obtain ⟨r, hr, hp⟩ := platformStep_done_results env pid fd p st st1 hw hs
      obtain ⟨l, hl, hm⟩ := platformLoop_done_results env pid fd hw ps st1 st' h
      refine ⟨r :: l, ?_, ?_⟩
      · rw [hl, hr]
        simp
      · simp [hm, hp]

/-- The generation collaborators relevant to a post's platforms all
succeed (publishers are unconstrained). -/
def GenTotal (env : Env) (fd : FlowerData) : Prop :=
  (∀ i, ∃ b, env.gen_blog fd i = .ok b) ∧
  (∃ c, env.gen_caption fd = .ok c) ∧
  (∃ t, env.gen_tags fd = .ok t) ∧
  (∀ i v, ∃ u, env.render_video i fd v = .ok u)

theorem stepNaver_total (env : Env) (fd : FlowerData) (st : LoopState)
    (hg : GenTotal env fd) (q : FlowerPost)
    (hq : Store.find st.tr.store st.post.id = some q) :
    ∃ st', stepNaver env fd st = .done st' ∧
      Store.find st'.tr.store st'.post.id = some st'.post := by
  obtain ⟨blog, hb⟩ := hg.1 st.post.image_paths
  unfold stepNaver
  rw [hb]
  dsimp only
  split
  · next e heq =>
      unfold repoUpdate at heq
      dsimp only at heq
      rw [hq] at heq
      cases heq
  · next store1 heq =>
      unfold repoUpdate at heq
      dsimp only at heq
      rw [hq] at heq
      cases heq
      split
      · next e heq2 =>
          unfold repoUpdate at heq2
          dsimp only [FlowerPost.add_publish_result] at heq2
          rw [Store.find_set_self] at heq2
          cases heq2
      · next store2 heq2 =>
          unfold repoUpdate at heq2
          dsimp only [FlowerPost.add_publish_result] at heq2
          rw [Store.find_set_self] at heq2
          cases heq2
          exact ⟨_, rfl, Store.find_set_self _ _ _⟩

theorem stepInstagram_total (env : Env) (fd : FlowerData) (st : LoopState)
    (hg : GenTotal env fd) (q : FlowerPost)
    (hq : Store.find st.tr.store st.post.id = some q) :
    ∃ st', stepInstagram env fd st = .done st' ∧
      Store.find st'.tr.store st'.post.id = some st'.post := by
  obtain ⟨caption, hc⟩ := hg.2.1
  obtain ⟨tags, ht⟩ := hg.2.2.1
  unfold stepInstagram
  rw [hc, ht]
  dsimp only
  split
  · next e heq =>
      unfold repoUpdate at heq
      dsimp only at heq
      rw [hq] at heq
      cases heq
  · next store1 heq =>
      unfold repoUpdate at heq
      dsimp only at heq
      rw [hq] at heq
      cases heq
      split
      · next e heq2 =>
          unfold repoUpdate at heq2
          dsimp only [FlowerPost.add_publish_result] at heq2
          rw [Store.find_set_self] at heq2
          cases heq2
      · next store2 heq2 =>
          unfold repoUpdate at heq2
          dsimp only [FlowerPost.add_publish_result] at heq2
          rw [Store.find_set_self] at heq2
          cases heq2
          exact ⟨_, rfl, Store.find_set_self _ _ _⟩

theorem stepYoutube_total (env : Env) (pid : String) (fd : FlowerData)
    (st : LoopState) (hg : GenTotal env fd) (q : FlowerPost)
    (hq : Store.find st.tr.store st.post.id = some q) :
    ∃ st', stepYoutube env pid fd st = .done st' ∧
      Store.find st'.tr.store st'.post.id = some st'.post := by
  obtain ⟨u, hv⟩ := hg.2.2.2 st.post.image_paths
      ("uploads/" ++ pid ++ "/shorts_video.mp4")
  obtain ⟨tags, ht⟩ := hg.2.2.1
  unfold stepYoutube
  dsimp only
  rw [hv, ht]
  dsimp only
  split
  · next e heq =>
      unfold repoUpdate at heq
      dsimp only at heq
      rw [hq] at heq
      cases heq
  · next store1 heq =>
      unfold repoUpdate at heq
      dsimp only at heq
      rw [hq] at heq
      cases heq
      split
      · next e heq2 =>
          unfold repoUpdate at heq2
          dsimp only [FlowerPost.add_publish_result] at heq2
          rw [Store.find_set_self] at heq2
          cases heq2
      · next store2 heq2 =>
          unfold repoUpdate at heq2
          dsimp only [FlowerPost.add_publish_result] at heq2
          rw [Store.find_set_self] at heq2
          cases heq2
          exact ⟨_, rfl, Store.find_set_self _ _ _⟩

theorem platformStep_total (env : Env) (pid : String) (fd : FlowerData)
    (p : Platform) (st : LoopState) (hg : GenTotal env fd)
    (q : FlowerPost)
    (hq : Store.find st.tr.store st.post.id = some q) :
    ∃ st', platformStep env pid fd p st = .done st' ∧
      Store.find st'.tr.store st'.post.id = some st'.post := by
  cases p with
  | naver => exact stepNaver_total env fd st hg q hq
  | instagram => exact stepInstagram_total env fd st hg q hq
  | youtube => exact stepYoutube_total env pid fd st hg q hq

/-- When every generation/render collaborator succeeds, the loop never
raises — it always completes (publishers are free to fail: their
exceptions are converted by `publish`). -/
theorem platformLoop_total (env : Env) (pid : String) (fd : FlowerData)
    (hg : GenTotal env fd) :
    ∀ (ps : List Platform) (st : LoopState) (q : FlowerPost),
      Store.find st.tr.store st.post.id = some q →
      ∃ st', platformLoop env pid fd ps st = .done st' ∧
        ∃ q', Store.find st'.tr.store st'.post.id = some q'
  | [], st, q, hq => ⟨st, rfl, q, hq⟩
  | p :: ps, st, q, hq => by
    obtain ⟨st1, hs, hfind⟩ := platformStep_total env pid fd p st hg q hq
    obtain ⟨st', hl, hq'⟩ :=
      platformLoop_total env pid fd hg ps st1 st1.post hfind
    refine ⟨st', ?_, hq'⟩
    unfold platformLoop
    rw [hs]
    exact hl

end LoopLemmas

section RunLemmas

/-- Every post snapshot a run hands to `repository.update` keeps the
loaded post's identity, `created_at` and `error_message`. -/
def writesInv (p0 : FlowerPost) (pid : String)
    (ws : List FlowerPost) : Prop :=
  ∀ w ∈ ws, w.id = pid ∧ w.created_at = p0.created_at ∧
    w.error_message = p0.error_message

/-- Invariant of every exit of the `try` block, for a run that loaded
`p0` (stored under `pid`) whose first image is `img`: the analyzer was
called exactly on `img`, all writes satisfy `writesInv`, and on a raise
the `post` local is bound and also satisfies those facts. -/
def ExitInv (p0 : FlowerPost) (pid img : String) : TryOut → Prop
  | .ok _ tr => tr.analyzeCalls = [img] ∧ writesInv p0 pid tr.writes
  | .err _ po tr => tr.analyzeCalls = [img] ∧ writesInv p0 pid tr.writes ∧
      ∃ post, po = some post ∧ post.id = pid ∧
        post.created_at = p0.created_at ∧
        post.error_message = p0.error_message

theorem finishRun_inv (pid img : String) (p0 : FlowerPost) (out : LoopOut)
    (h0 : out.state.tr.analyzeCalls = [img])
    (hw0 : writesInv p0 pid out.state.tr.writes)
    (hid : out.state.post.id = pid)
    (hc : out.state.post.created_at = p0.created_at)
    (he : out.state.post.error_message = p0.error_message) :
    ExitInv p0 pid img (finishRun pid out) := by
  cases out with
  | fail e st => exact ⟨h0, hw0, st.post, rfl, hid, hc, he⟩
  | done st =>
    dsimp only [LoopOut.state] at h0 hw0 hid hc he
    unfold finishRun
    dsimp only
    split
    · exact ⟨h0, hw0, _, rfl,
        (update_status_id _ _ _ _).trans hid,
        (update_status_created_at _ _ _ _).trans hc,
        (update_status_error_message_none _ _ _).trans he⟩
    · refine ⟨h0, ?_⟩
      intro w hw
      rcases List.mem_append.mp hw with h | h
      · exact hw0 w h
      · rw [List.mem_singleton] at h
        subst h
        exact ⟨(update_status_id _ _ _ _).trans hid,
          (update_status_created_at _ _ _ _).trans hc,
          (update_status_error_message_none _ _ _).trans he⟩

theorem finishRun_loop_inv (env : Env) (pid img : String) (fd : FlowerData)
    (p0 : FlowerPost) (ps : List Platform) (st0 : LoopState)
    (h0 : st0.tr.analyzeCalls = [img])
    (hw0 : writesInv p0 pid st0.tr.writes)
    (hid : st0.post.id = pid)
    (hc : st0.post.created_at = p0.created_at)
    (he : st0.post.error_message = p0.error_message) :
    ExitInv p0 pid img (finishRun pid (platformLoop env pid fd ps st0)) := by
  obtain ⟨⟨pi, pst, pc, pe, _, _, _⟩, pa, pw⟩ :=
    platformLoop_pres env pid fd ps st0
  apply finishRun_inv
  · exact pa.trans h0
  · intro w hw
    rcases pw w hw with h | ⟨wi, wc, we, _⟩
    · exact hw0 w h
    · exact ⟨wi.trans hid, wc.trans hc, we.trans he⟩
  · exact pi.trans hid
  · exact pc.trans hc
  · exact pe.trans he

/-- Master invariant of the `try` block for a run that finds post `p0`
at id `pid` with a non-empty image list. -/
theorem tryBody_inv (env : Env) (store : Store) (clock : Nat)
    (pid : String) (p0 : FlowerPost) (img : String) (rest : List String)
    (hff : env.find_fault = none)
    (hp0 : Store.find store pid = some p0)
    (hpid : p0.id = pid)
    (him : p0.image_paths = img :: rest) :
    ExitInv p0 pid img (tryBody env store clock pid) := by
  have hfacts1 : ∀ s e n, (p0.update_status s e n).id = pid :=
    fun s e n => (update_status_id p0 s e n).trans hpid
  have h1 : repoUpdate store (p0.update_status PostStatus.processing none clock)
      = .ok (Store.set store pid
          (p0.update_status PostStatus.processing none clock)) := by
    unfold repoUpdate
    rw [update_status_id, hpid, hp0]
  unfold tryBody
  rw [hff]
  dsimp only
  rw [hp0]
  dsimp only
  rw [h1]
  dsimp only
  rw [update_status_image_paths, him]
  dsimp only
  cases ha : env.analyze img with
  | error e =>
    exact ⟨rfl, fun w hw => by
        rw [List.mem_singleton] at hw
        subst hw
        exact ⟨hfacts1 _ _ _, update_status_created_at _ _ _ _,
          update_status_error_message_none _ _ _⟩,
      _, rfl, hfacts1 _ _ _, update_status_created_at _ _ _ _,
      update_status_error_message_none _ _ _⟩
  | ok fd =>
    dsimp only
    split
    · next e heq =>
        unfold repoUpdate at heq
        dsimp only at heq
        rw [update_status_id, hpid, Store.find_set_self] at heq
        cases heq
    · next store2 heq =>
        unfold repoUpdate at heq
        dsimp only at heq
        rw [update_status_id, hpid, Store.find_set_self] at heq
        cases heq
        rw [update_status_platforms]
        apply finishRun_loop_inv
        · rfl
        · intro w hw
          rcases List.mem_append.mp hw with h | h
          · rw [List.mem_singleton] at h
            subst h
            exact ⟨hfacts1 _ _ _, update_status_created_at _ _ _ _,
              update_status_error_message_none _ _ _⟩
          · rw [List.mem_singleton] at h
            subst h
            refine ⟨?_, ?_, ?_⟩ <;> dsimp only
            · exact hfacts1 _ _ _
            · exact update_status_created_at _ _ _ _
            · exact update_status_error_message_none _ _ _
        · dsimp only
          exact hfacts1 _ _ _
        · dsimp only
          exact update_status_created_at _ _ _ _
        · dsimp only
          exact update_status_error_message_none _ _ _

/-- Run-level invariant: with the post found and a non-empty image list,
the analyzer is invoked exactly on the first image, and every persisted
snapshot keeps the loaded `created_at` and changes `error_message` only
on a failed-status write. -/
theorem run_inv (env : Env) (store : Store) (clock : Nat) (pid : String)
    (p0 : FlowerPost) (img : String) (rest : List String)
    (hff : env.find_fault = none)
    (hp0 : Store.find store pid = some p0)
    (hpid : p0.id = pid)
    (him : p0.image_paths = img :: rest) :
    (process_flower_content env store clock pid).tr.analyzeCalls = [img] ∧
    ∀ w ∈ (process_flower_content env store clock pid).tr.writes,
      w.id = pid ∧ w.created_at = p0.created_at ∧
      (w.error_message = p0.error_message ∨ w.status = .failed) := by
  have hinv := tryBody_inv env store clock pid p0 img rest hff hp0 hpid him
  unfold process_flower_content
  cases ht : tryBody env store clock pid with
  | ok r tr =>
    rw [ht] at hinv
    obtain ⟨ha, hw⟩ := hinv
    exact ⟨ha, fun w hmem =>
      ⟨(hw w hmem).1, (hw w hmem).2.1, Or.inl (hw w hmem).2.2⟩⟩
  | err e po tr =>
    rw [ht] at hinv
    obtain ⟨ha, hw, post, hpo, hid, hc, he⟩ := hinv
    subst hpo
    dsimp only
    split
    · refine ⟨ha, ?_⟩
      intro w hmem
      rcases List.mem_append.mp hmem with h | h
      · exact ⟨(hw w h).1, (hw w h).2.1, Or.inl (hw w h).2.2⟩
      · rw [List.mem_singleton] at h
        subst h
        exact ⟨(update_status_id _ _ _ _).trans hid,
          (update_status_created_at _ _ _ _).trans hc,
          Or.inr (update_status_status _ _ _ _)⟩
    · exact ⟨ha, fun w hmem =>
        ⟨(hw w hmem).1, (hw w hmem).2.1, Or.inl (hw w hmem).2.2⟩⟩

theorem repoUpdate_ok_eq (s : Store) (p : FlowerPost) (s' : Store)
    (h : repoUpdate s p = .ok s') : s' = Store.set s p.id p := by
  unfold repoUpdate at h
  cases hf : Store.find s p.id with
  | none => rw [hf] at h; cases h
  | some q => rw [hf] at h; cases h; rfl

/-- A successful exit of `finishRun` comes from a completed loop whose
final post was marked completed and stored. -/
theorem finishRun_ok (pid : String) (out : LoopOut) (r : TaskResult)
    (tr : Trace) (h : finishRun pid out = .ok r tr) :
    ∃ st, out = .done st ∧
      r = { success := true, post_id := some pid, results := st.results } ∧
      tr.store = Store.set st.tr.store
        (st.post.update_status .completed none st.tr.clock).id
        (st.post.update_status .completed none st.tr.clock) := by
  cases out with
  | fail e st =>
    unfold finishRun at h
    cases h
  | done st =>
    unfold finishRun at h
    dsimp only at h
    split at h
    · cases h
    · next storeF heq =>
      cases h
      exact ⟨st, rfl, rfl, repoUpdate_ok_eq _ _ _ heq⟩

/-- With every generator succeeding, `finishRun ∘ platformLoop` always
returns a success value (the publishers may still fail or raise). -/
theorem finishRun_loop_total (env : Env) (pid : String) (fd : FlowerData)
    (ps : List Platform) (st0 : LoopState) (hg : GenTotal env fd)
    (q : FlowerPost)
    (hq : Store.find st0.tr.store st0.post.id = some q) :
    ∃ r tr, finishRun pid (platformLoop env pid fd ps st0) = .ok r tr := by
  obtain ⟨st', hdone, q', hq'⟩ :=
    platformLoop_total env pid fd hg ps st0 q hq
  rw [hdone]
  unfold finishRun
  dsimp only
  rw [repoUpdate_of_find st'.tr.store
    (st'.post.update_status PostStatus.completed none st'.tr.clock) q'
    (by rw [update_status_id]; exact hq')]
  exact ⟨_, _, rfl⟩

theorem platformLoop_done_pres (env : Env) (pid : String) (fd : FlowerData)
    {ps : List Platform} {st st' : LoopState}
    (h : platformLoop env pid fd ps st = .done st') : loopPres st st' := by
  have hp := platformLoop_pres env pid fd ps st
  rw [h] at hp
  exact hp

/-- A successful exit of the `try` block is the completed path: the run
marked the post completed and appended one publish outcome per requested
platform, in request order. -/
theorem tryBody_ok_spec (env : Env) (store : Store) (clock : Nat)
    (pid : String) (p0 : FlowerPost) (r : TaskResult) (tr : Trace)
    (hff : env.find_fault = none)
    (hp0 : Store.find store pid = some p0)
    (hpid : p0.id = pid)
    (hw : WellTagged env.svc)
    (ht : tryBody env store clock pid = .ok r tr) :
    r.success = true ∧
    ∃ q l, Store.find tr.store pid = some q ∧
      q.status = .completed ∧
      q.error_message = p0.error_message ∧
      q.publish_results = p0.publish_results ++ l ∧
      l.map (fun x => x.platform) = p0.platforms := by
  have h1 : repoUpdate store (p0.update_status PostStatus.processing none clock)
      = .ok (Store.set store pid
          (p0.update_status PostStatus.processing none clock)) := by
    unfold repoUpdate
    rw [update_status_id, hpid, hp0]
  unfold tryBody at ht
  rw [hff] at ht
  dsimp only at ht
  rw [hp0] at ht
  dsimp only at ht
  rw [h1] at ht
  dsimp only at ht
  cases him : p0.image_paths with
  | nil =>
    rw [update_status_image_paths, him] at ht
    dsimp only at ht
    cases ht
  | cons img rest =>
    rw [update_status_image_paths, him] at ht
    dsimp only at ht
    cases ha : env.analyze img with
    | error e =>
      rw [ha] at ht
      dsimp only at ht
      cases ht
    | ok fd =>
      rw [ha] at ht
      dsimp only at ht
      split at ht
      · cases ht
      · next store2 heq2 =>
        obtain ⟨st, hdone, hr, hstore⟩ := finishRun_ok _ _ _ _ ht
        obtain ⟨⟨sid, sst, scr, serr, _, _, _⟩, _, _⟩ :=
          platformLoop_done_pres env pid fd hdone
        obtain ⟨l, hl, hm⟩ :=
          platformLoop_done_results env pid fd hw _ _ _ hdone
        have hsid : st.post.id = pid := by
          rw [sid]
          dsimp only
          rw [update_status_id]
          exact hpid
        subst hr
        refine ⟨rfl, st.post.update_status PostStatus.completed none
          st.tr.clock, l, ?_, update_status_status _ _ _ _, ?_, ?_, ?_⟩
        · rw [hstore, update_status_id, hsid]
          exact Store.find_set_self _ _ _
        · simp only [update_status_error_message_none, serr]
        · simp only [update_status_publish_results, hl]
        · simp only [hm, update_status_platforms]

/-- With analysis succeeding and every generator succeeding, the `try`
block returns a success value (publishers may still fail or raise). -/
theorem tryBody_total (env : Env) (store : Store) (clock : Nat)
    (pid : String) (p0 : FlowerPost) (img : String) (rest : List String)
    (fd : FlowerData)
    (hff : env.find_fault = none)
    (hp0 : Store.find store pid = some p0)
    (hpid : p0.id = pid)
    (him : p0.image_paths = img :: rest)
    (ha : env.analyze img = .ok fd)
    (hg : GenTotal env fd) :
    ∃ r tr, tryBody env store clock pid = .ok r tr := by
  have h1 : repoUpdate store (p0.update_status PostStatus.processing none clock)
      = .ok (Store.set store pid
          (p0.update_status PostStatus.processing none clock)) := by
    unfold repoUpdate
    rw [update_status_id, hpid, hp0]
  unfold tryBody
  rw [hff]
  dsimp only
  rw [hp0]
  dsimp only
  rw [h1]
  dsimp only
  rw [update_status_image_paths, him]
  dsimp only
  rw [ha]
  dsimp only
  split
  · next e heq =>
    unfold repoUpdate at heq
    dsimp only at heq
    rw [update_status_id, hpid, Store.find_set_self] at heq
    cases heq
  · next store2 heq =>
    have hs2 := repoUpdate_ok_eq _ _ _ heq
    subst hs2
    apply finishRun_loop_total env pid fd _ _ hg
    dsimp only
    exact Store.find_set_self _ _ _

end RunLemmas

section Claims

/-- Sample analysis attributes used by concrete runs. -/
def fdSample : FlowerData :=
  { flower_type_korean := "장미", flower_type_english := "Rose",
    flower_type_scientific := "Rosa", colors := ["red"],
    seasonal := "여름", meaning := "사랑", care_tips := "물주기",
    decoration_ideas := "꽃병", gift_occasions := ["생일"] }

/-- Publisher registry whose oracles all succeed. -/
def svcAllOk : SocialPublisherService :=
  get_social_publishers (fun _ _ _ => .ok "https://blog.naver.com/x")
    (fun _ _ _ => .ok "mid1") (fun _ _ _ _ => .ok ())

/-- Publisher registry whose three publishers all raise. -/
def svcRaisesAll : SocialPublisherService :=
  { naver_publisher := some fun _ _ _ => .error (.other "x")
    instagram_publisher := some fun _ _ _ => .error (.other "x")
    youtube_publisher := some fun _ _ _ _ => .error (.other "x") }

theorem wellTagged_svcRaisesAll : WellTagged svcRaisesAll := by
  refine ⟨?_, ?_, ?_⟩
  · intro f t c i r hf hr
    simp only [svcRaisesAll, Option.some.injEq] at hf
    subst hf
    cases hr
  · intro f c h i r hf hr
    simp only [svcRaisesAll, Option.some.injEq] at hf
    subst hf
    cases hr
  · intro f v t d g r hf hr
    simp only [svcRaisesAll, Option.some.injEq] at hf
    subst hf
    cases hr

/-- Environment in which every collaborator succeeds. -/
def envOk : Env :=
  { analyze := fun _ => .ok fdSample
    gen_blog := fun _ _ => .ok "blog text"
    gen_caption := fun _ => .ok "caption"
    gen_tags := fun _ => .ok ["#꽃"]
    render_video := fun _ _ _ => .ok ()
    svc := svcAllOk
    find_fault := none }

/-- C3: `publish` returns a `PublishResult` and never raises past its
boundary — every exception of the `try` body (an underlying publisher
raising, or the unsupported-platform `PublishingError`) is converted
into a failed result tagged with the requested platform whose error
field is the exception message. -/
theorem C3_publish_never_raises (svc : SocialPublisherService)
    (platform : Platform) (content : ContentBundle) :
    (∀ e, svc.attempt platform content = .error e →
      svc.publish platform content =
        { success := false, platform := platform, url := none,
          postId := none, error := some e.message }) ∧
    (svc.naver_publisher = none →
      svc.attempt .naver content = .error (.domain (.publishingError
        "지원되지 않는 플랫폼입니다: naver"))) := by
  constructor
  · intro e he
    unfold SocialPublisherService.publish
    rw [he]
  · intro hn
    unfold SocialPublisherService.attempt
    rw [hn]
    rfl

/-- Registry with no publisher registered for any platform. -/
def svcNone : SocialPublisherService :=
  { naver_publisher := none, instagram_publisher := none,
    youtube_publisher := none }

theorem C3_witness :
    svcNone.publish .naver {} =
      { success := false, platform := .naver, url := none,
        postId := none,
        error := some "지원되지 않는 플랫폼입니다: naver" } :=
  (C3_publish_never_raises svcNone .naver {}).1 _
    ((C3_publish_never_raises svcNone .naver {}).2 rfl)

/-- C5: a run on an id with no store entry returns the not-found result
dict and performs no persistence write — the whole run result is the
unchanged store, an empty write trace, and the not-found return value. -/
theorem C5_not_found (env : Env) (store : Store) (clock : Nat)
    (pid : String)
    (hff : env.find_fault = none)
    (hp0 : Store.find store pid = none) :
    process_flower_content env store clock pid =
      { outcome := .returned
          { success := false, error := some "Post not found" },
        tr := { store := store, clock := clock, writes := [],
                analyzeCalls := [], pubCalls := [] } } := by
  unfold process_flower_content tryBody
  rw [hff]
  dsimp only
  rw [hp0]

theorem C5_witness :
    process_flower_content envOk [] 0 "nope" =
      { outcome := .returned
          { success := false, error := some "Post not found" },
        tr := { store := [], clock := 0, writes := [],
                analyzeCalls := [], pubCalls := [] } } :=
  C5_not_found envOk [] 0 "nope" rfl rfl

/-- C10: when `repository.find_by_id` itself raises, the exception
handlers dereference the unbound `post` local, so the handler fails with
an `UnboundLocalError` that escapes the task and no failed-status write
(indeed no write at all) is performed. -/
theorem C10_find_raise_crashes (env : Env) (store : Store) (clock : Nat)
    (pid : String) (e : Exc)
    (hff : env.find_fault = some e) :
    process_flower_content env store clock pid =
      { outcome := .crashed
          "UnboundLocalError: post referenced before assignment",
        tr := { store := store, clock := clock, writes := [],
                analyzeCalls := [], pubCalls := [] } } := by
  unfold process_flower_content tryBody
  rw [hff]

/-- Environment whose `find_by_id` raises a `RepositoryError`. -/
def envFindRaises : Env :=
  { envOk with find_fault := some (.domain (.repositoryError
      "포스트 조회 중 오류가 발생했습니다: db down")) }

theorem C10_witness :
    process_flower_content envFindRaises [] 0 "p1" =
      { outcome := .crashed
          "UnboundLocalError: post referenced before assignment",
        tr := { store := [], clock := 0, writes := [],
                analyzeCalls := [], pubCalls := [] } } :=
  C10_find_raise_crashes envFindRaises [] 0 "p1" _ rfl

/-- C6: whenever the loaded post has a non-empty image sequence, the
Analysis Gateway is invoked with exactly the first image and no other. -/
theorem C6_first_image (env : Env) (store : Store) (clock : Nat)
    (pid : String) (p0 : FlowerPost) (img : String) (rest : List String)
    (hff : env.find_fault = none)
    (hp0 : Store.find store pid = some p0)
    (hpid : p0.id = pid)
    (him : p0.image_paths = img :: rest) :
    (process_flower_content env store clock pid).tr.analyzeCalls = [img] :=
  (run_inv env store clock pid p0 img rest hff hp0 hpid him).1

/-- A pending post with two images requesting [naver, youtube]. -/
def postTwo : FlowerPost :=
  { id := "p2", image_paths := ["b.jpg", "c.jpg"],
    platforms := [.naver, .youtube] }

theorem C6_witness :
    (process_flower_content envOk [("p2", postTwo)] 0 "p2").tr.analyzeCalls
      = ["b.jpg"] :=
  C6_first_image envOk [("p2", postTwo)] 0 "p2" postTwo "b.jpg" ["c.jpg"]
    rfl rfl rfl rfl

/-- C2: a run that reaches completed status has appended exactly one
publish outcome per requested platform, in request order, each tagged
with its platform (given the wiring invariant that publishers tag their
own platform), regardless of the entries' success flags. -/
theorem C2_completed_outcomes (env : Env) (store : Store) (clock : Nat)
    (pid : String) (p0 : FlowerPost) (r : TaskResult)
    (hff : env.find_fault = none)
    (hp0 : Store.find store pid = some p0)
    (hpid : p0.id = pid)
    (hw : WellTagged env.svc)
    (hout : (process_flower_content env store clock pid).outcome
      = .returned r)
    (hsucc : r.success = true) :
    ∃ q l,
      Store.find (process_flower_content env store clock pid).tr.store pid
        = some q ∧
      q.status = .completed ∧
      q.publish_results = p0.publish_results ++ l ∧
      l.map (fun x => x.platform) = p0.platforms := by
  unfold process_flower_content at hout ⊢
  cases ht : tryBody env store clock pid with
  | ok rt tr =>
    rw [ht] at hout
    dsimp only at hout ⊢
    cases hout
    obtain ⟨_, q, l, hfind, hstat, _, hpub, hmap⟩ :=
      tryBody_ok_spec env store clock pid p0 _ tr hff hp0 hpid hw ht
    exact ⟨q, l, hfind, hstat, hpub, hmap⟩
  | err e po tr =>
    rw [ht] at hout
    dsimp only at hout
    cases po with
    | none =>
      dsimp only at hout
      cases hout
    | some post =>
      dsimp only at hout
      cases hru : repoUpdate tr.store
          (post.update_status PostStatus.failed (some e.message) tr.clock) with
      | ok storeF =>
        rw [hru] at hout
        dsimp only at hout
        cases hout
        simp at hsucc
      | error e2 =>
        rw [hru] at hout
        dsimp only at hout
        cases hout

/-- Environment whose publishers all raise (so every outcome entry is a
failed one): a completed run still has one entry per platform. -/
def envC2w : Env := { envOk with svc := svcRaisesAll }

theorem C2_witness :
    ∃ q l,
      Store.find
        (process_flower_content envC2w [("p2", postTwo)] 0 "p2").tr.store
        "p2" = some q ∧
      q.status = .completed ∧
      q.publish_results = postTwo.publish_results ++ l ∧
      l.map (fun x => x.platform) = postTwo.platforms :=
  C2_completed_outcomes envC2w [("p2", postTwo)] 0 "p2" postTwo
    { success := true, error := none, post_id := some "p2",
      results :=
        [("naver",
          { success := false
            platform := .naver
            url := none
            postId := none
            error := some "x" }),
         ("youtube",
          { success := false
            platform := .youtube
            url := none
            postId := none
            error := some "x" })] }
    rfl rfl rfl wellTagged_svcRaisesAll (by rfl) rfl

/-- Post requesting [naver, instagram]. -/
def postC1 : FlowerPost :=
  { id := "p1", image_paths := ["a.jpg"],
    platforms := [.naver, .instagram] }

/-- Environment whose blog content generation raises
`ContentGenerationError`. -/
def envC1 : Env :=
  { envOk with gen_blog := fun _ _ => .error (.domain
      (.contentGenerationError
        "블로그 포스트 생성 중 오류가 발생했습니다: boom")) }

/-- C1 as stated is false: with [naver, instagram] requested and the
blog content generation raising, the loop is aborted — the run ends
failed with zero publish-outcome entries and zero publish attempts, so
the later platform (instagram) never receives an attempted outcome. -/
theorem C1_counterexample :
    postC1.platforms = [Platform.naver, Platform.instagram] ∧
    (Store.find
        (process_flower_content envC1 [("p1", postC1)] 0 "p1").tr.store
        "p1").map (fun q => (q.status, q.publish_results)) =
      some (PostStatus.failed, []) ∧
    (process_flower_content envC1 [("p1", postC1)] 0 "p1").tr.pubCalls
      = [] := by
  exact ⟨rfl, rfl, rfl⟩

/-- C1 (amended): only the publish call is isolated — a failure raised
inside a platform's publish is converted into a failed outcome entry by
the publisher service and the loop proceeds, so when analysis, content
generation and video rendering succeed, every requested platform
receives an attempted outcome entry even if every publisher raises; a
failure in content generation or video rendering, however, aborts the
loop (counterexample). -/
theorem C1_amended_publish_isolation (env : Env) (store : Store)
    (clock : Nat) (pid : String) (p0 : FlowerPost) (img : String)
    (rest : List String) (fd : FlowerData)
    (hff : env.find_fault = none)
    (hp0 : Store.find store pid = some p0)
    (hpid : p0.id = pid)
    (him : p0.image_paths = img :: rest)
    (ha : env.analyze img = .ok fd)
    (hg : GenTotal env fd)
    (hw : WellTagged env.svc) :
    ∃ r, (process_flower_content env store clock pid).outcome
        = .returned r ∧ r.success = true ∧
      ∃ q l,
        Store.find
          (process_flower_content env store clock pid).tr.store pid
          = some q ∧
        q.status = .completed ∧
        q.publish_results = p0.publish_results ++ l ∧
        l.map (fun x => x.platform) = p0.platforms := by
  obtain ⟨r, tr, ht⟩ := tryBody_total env store clock pid p0 img rest fd
    hff hp0 hpid him ha hg
  obtain ⟨hsucc, q, l, hfind, hstat, _, hpub, hmap⟩ :=
    tryBody_ok_spec env store clock pid p0 r tr hff hp0 hpid hw ht
  unfold process_flower_content
  rw [ht]
  exact ⟨r, rfl, hsucc, q, l, hfind, hstat, hpub, hmap⟩

/-- Registry in which the instagram publisher raises while naver and
youtube succeed. -/
def svcInstaRaises : SocialPublisherService :=
  { naver_publisher := some (fun t c i =>
      .ok (NaverBlogPublisher.publish_to_naver
        (fun _ _ _ => .ok "https://blog.naver.com/x") t c i))
    instagram_publisher := some (fun _ _ _ =>
      .error (.domain (.publishingError "Instagram 발행 중 오류")))
    youtube_publisher := some (fun v t d g =>
      .ok (YoutubePublisher.publish_to_youtube
        (fun _ _ _ _ => .ok ()) v t d g)) }

theorem wellTagged_svcInstaRaises : WellTagged svcInstaRaises := by
  refine ⟨?_, ?_, ?_⟩
  · intro f t c i r hf hr
    simp only [svcInstaRaises, Option.some.injEq] at hf
    subst hf
    simp only [Except.ok.injEq] at hr
    subst hr
    exact NaverBlogPublisher.naverTag _ t c i
  · intro f c h i r hf hr
    simp only [svcInstaRaises, Option.some.injEq] at hf
    subst hf
    cases hr
  · intro f v t d g r hf hr
    simp only [svcInstaRaises, Option.some.injEq] at hf
    subst hf
    simp only [Except.ok.injEq] at hr
    subst hr
    exact YoutubePublisher.youtubeTag _ v t d g

/-- Post requesting [instagram, naver]: the photo platform first, the
blog after it. -/
def postC1w : FlowerPost :=
  { id := "pw", image_paths := ["a.jpg"],
    platforms := [.instagram, .naver] }

def envC1w : Env := { envOk with svc := svcInstaRaises }

theorem C1_amended_witness :
    ∃ r, (process_flower_content envC1w [("pw", postC1w)] 0 "pw").outcome
        = .returned r ∧ r.success = true ∧
      ∃ q l,
        Store.find
          (process_flower_content envC1w [("pw", postC1w)] 0 "pw").tr.store
          "pw" = some q ∧
        q.status = .completed ∧
        q.publish_results = postC1w.publish_results ++ l ∧
        l.map (fun x => x.platform) = postC1w.platforms :=
  C1_amended_publish_isolation envC1w [("pw", postC1w)] 0 "pw" postC1w
    "a.jpg" [] fdSample rfl rfl rfl rfl rfl
    ⟨fun _ => ⟨"blog text", rfl⟩, ⟨"caption", rfl⟩, ⟨["#꽃"], rfl⟩,
      fun _ _ => ⟨(), rfl⟩⟩
    wellTagged_svcInstaRaises

/-- C4: when analysis raises, the run terminates with the post persisted
as failed with the analysis error message recorded, zero publish-outcome
entries added, the generated-content fields (blog_content) unchanged,
the analysis attributes not substituted by defaults (flower_data
unchanged), and no platform publish attempted. -/
theorem C4_analysis_failure (env : Env) (store : Store) (clock : Nat)
    (pid : String) (p0 : FlowerPost) (img : String) (rest : List String)
    (e : Exc)
    (hff : env.find_fault = none)
    (hp0 : Store.find store pid = some p0)
    (hpid : p0.id = pid)
    (him : p0.image_paths = img :: rest)
    (ha : env.analyze img = .error e)
    (hmsg : e.message ≠ "") :
    (process_flower_content env store clock pid).outcome
      = .returned { success := false, error := some e.message } ∧
    (process_flower_content env store clock pid).tr.pubCalls = [] ∧
    ∃ q,
      Store.find (process_flower_content env store clock pid).tr.store pid
        = some q ∧
      q.status = .failed ∧
      q.error_message = some e.message ∧
      q.publish_results = p0.publish_results ∧
      q.blog_content = p0.blog_content ∧
      q.flower_data = p0.flower_data := by
  have h1 : repoUpdate store (p0.update_status PostStatus.processing none clock)
      = .ok (Store.set store pid
          (p0.update_status PostStatus.processing none clock)) := by
    unfold repoUpdate
    rw [update_status_id, hpid, hp0]
  have ht : tryBody env store clock pid = .err e
      (some (p0.update_status PostStatus.processing none clock))
      { store := Store.set store pid
          (p0.update_status PostStatus.processing none clock)
        clock := clock + 1
        writes := [p0.update_status PostStatus.processing none clock]
        analyzeCalls := [img]
        pubCalls := [] } := by
    unfold tryBody
    rw [hff]
    dsimp only
    rw [hp0]
    dsimp only
    rw [h1]
    dsimp only
    rw [update_status_image_paths, him]
    dsimp only
    rw [ha]
  have h2 : repoUpdate
      (Store.set store pid (p0.update_status PostStatus.processing none clock))
      ((p0.update_status PostStatus.processing none clock).update_status
        PostStatus.failed (some e.message) (clock + 1))
      = .ok (Store.set
          (Store.set store pid
            (p0.update_status PostStatus.processing none clock))
          pid
          ((p0.update_status PostStatus.processing none clock).update_status
            PostStatus.failed (some e.message) (clock + 1))) := by
    unfold repoUpdate
    rw [update_status_id, update_status_id, hpid, Store.find_set_self]
  unfold process_flower_content
  rw [ht]
  dsimp only
  rw [h2]
  dsimp only
  refine ⟨rfl, rfl, _, Store.find_set_self _ _ _,
    update_status_status _ _ _ _,
    update_status_error_message_some _ _ _ _ hmsg, ?_, ?_, ?_⟩
  · rw [update_status_publish_results, update_status_publish_results]
  · rw [update_status_blog_content, update_status_blog_content]
  · rw [update_status_flower_data, update_status_flower_data]

/-- Environment whose analyzer raises `ImageAnalysisError` (the default
attributes attached to the exception are never used by the task). -/
def envC4 : Env :=
  { envOk with analyze := fun _ => .error (.domain (.imageAnalysisError
      "이미지 분석 중 오류가 발생했습니다: bad image")) }

/-- Pending post requesting [naver] with one image. -/
def postC4 : FlowerPost :=
  { id := "p4", image_paths := ["d.jpg"], platforms := [.naver] }

theorem C4_witness :
    (process_flower_content envC4 [("p4", postC4)] 0 "p4").outcome
      = .returned { success := false
                    error := some "이미지 분석 중 오류가 발생했습니다: bad image" } ∧
    (process_flower_content envC4 [("p4", postC4)] 0 "p4").tr.pubCalls
      = [] ∧
    ∃ q,
      Store.find
        (process_flower_content envC4 [("p4", postC4)] 0 "p4").tr.store
        "p4" = some q ∧
      q.status = .failed ∧
      q.error_message
        = some "이미지 분석 중 오류가 발생했습니다: bad image" ∧
      q.publish_results = postC4.publish_results ∧
      q.blog_content = postC4.blog_content ∧
      q.flower_data = postC4.flower_data :=
  C4_analysis_failure envC4 [("p4", postC4)] 0 "p4" postC4 "d.jpg" [] _
    rfl rfl rfl rfl rfl (by decide)

/-- C7 as stated is false: in a successful concrete run the second
persistence write stores a changed `flower_data` while its `updated_at`
equals the previous write's — the direct field assignment at
tasks.py line 62 is persisted without bumping the timestamp. -/
theorem C7_counterexample :
    ((process_flower_content envOk [("p2", postTwo)] 5 "p2").tr.writes.get? 1).map
        (fun w => w.updated_at) =
      ((process_flower_content envOk [("p2", postTwo)] 5 "p2").tr.writes.get? 0).map
        (fun w => w.updated_at) ∧
    ((process_flower_content envOk [("p2", postTwo)] 5 "p2").tr.writes.get? 1).map
        (fun w => w.flower_data) ≠
      ((process_flower_content envOk [("p2", postTwo)] 5 "p2").tr.writes.get? 0).map
        (fun w => w.flower_data) := by
  refine ⟨rfl, ?_⟩
  decide

/-- C7 (amended): the two entity mutators `update_status` and
`add_publish_result` do set `updated_at` to the current time and never
change `created_at`, and no persisted snapshot of a run ever changes
`created_at`; the orchestrator's direct field assignments (analysis
attributes, generated content fields), however, are persisted without
advancing `updated_at` (counterexample). -/
theorem C7_amended_timestamps :
    (∀ (p : FlowerPost) (s : PostStatus) (err : Option String) (now : Nat),
      (p.update_status s err now).updated_at = now ∧
      (p.update_status s err now).created_at = p.created_at) ∧
    (∀ (p : FlowerPost) (r : PublishResult) (now : Nat),
      (p.add_publish_result r now).updated_at = now ∧
      (p.add_publish_result r now).created_at = p.created_at) ∧
    ∀ (env : Env) (store : Store) (clock : Nat) (pid : String)
      (p0 : FlowerPost) (img : String) (rest : List String),
      env.find_fault = none → Store.find store pid = some p0 →
      p0.id = pid → p0.image_paths = img :: rest →
      ∀ w ∈ (process_flower_content env store clock pid).tr.writes,
        w.created_at = p0.created_at := by
  refine ⟨?_, ?_, ?_⟩
  · intro p s err now
    exact ⟨update_status_updated_at p s err now,
      update_status_created_at p s err now⟩
  · intro p r now
    exact ⟨(add_publish_result_fields p r now).2.2.2.2.2.2.2.2,
      (add_publish_result_fields p r now).2.2.1⟩
  · intro env store clock pid p0 img rest hff hp0 hpid him w hw
    exact ((run_inv env store clock pid p0 img rest hff hp0 hpid him).2
      w hw).2.1

theorem C7_amended_witness :
    (FlowerPost.update_status postTwo PostStatus.failed none 7).updated_at
      = 7 ∧
    ∀ w ∈ (process_flower_content envOk [("p2", postTwo)] 5 "p2").tr.writes,
      w.created_at = postTwo.created_at :=
  ⟨(C7_amended_timestamps.1 postTwo PostStatus.failed none 7).1,
   C7_amended_timestamps.2.2 envOk [("p2", postTwo)] 5 "p2" postTwo
     "b.jpg" ["c.jpg"] rfl rfl rfl rfl⟩

/-- A post that failed in an earlier run, carrying an error message. -/
def postStale : FlowerPost :=
  { id := "p3", image_paths := ["e.jpg"], platforms := [.naver],
    status := .failed, error_message := some "boom" }

/-- C8 as stated is false: re-running a previously failed post that then
completes keeps the stale error message — the stored post ends with
status completed and `error_message` still set, because `update_status`
never clears a stored message. -/
theorem C8_counterexample :
    (Store.find
        (process_flower_content envOk [("p3", postStale)] 0 "p3").tr.store
        "p3").map (fun q => (q.status, q.error_message)) =
      some (PostStatus.completed, some "boom") := by
  rfl

/-- C8 (amended): within one run, a persisted snapshot's error message
differs from the loaded post's only on a failed-status write — the
pipeline passes a message only on the failed transition and
`update_status` without a message leaves the field untouched; the
message is never cleared, so a re-run of a previously failed post that
completes retains the old message (counterexample). -/
theorem C8_amended_error_message :
    (∀ (p : FlowerPost) (s : PostStatus) (now : Nat),
      (p.update_status s none now).error_message = p.error_message) ∧
    ∀ (env : Env) (store : Store) (clock : Nat) (pid : String)
      (p0 : FlowerPost) (img : String) (rest : List String),
      env.find_fault = none → Store.find store pid = some p0 →
      p0.id = pid → p0.image_paths = img :: rest →
      ∀ w ∈ (process_flower_content env store clock pid).tr.writes,
        w.error_message = p0.error_message ∨ w.status = .failed := by
  refine ⟨?_, ?_⟩
  · intro p s now
    exact update_status_error_message_none p s now
  · intro env store clock pid p0 img rest hff hp0 hpid him w hw
    exact ((run_inv env store clock pid p0 img rest hff hp0 hpid him).2
      w hw).2.2

theorem C8_amended_witness :
    (FlowerPost.update_status postStale PostStatus.processing none 3).error_message
      = postStale.error_message ∧
    ∀ w ∈ (process_flower_content envOk [("p3", postStale)] 0 "p3").tr.writes,
      w.error_message = postStale.error_message ∨ w.status = .failed :=
  ⟨C8_amended_error_message.1 postStale PostStatus.processing 3,
   C8_amended_error_message.2 envOk [("p3", postStale)] 0 "p3" postStale
     "e.jpg" [] rfl rfl rfl rfl⟩

/-- A fresh session over an empty database. -/
def dbEmpty : DbSession := { committed := [], pending := [] }

def noFaults : DbFaults :=
  { queryFault := false, commitFault := false, refreshFault := false }

def refreshFaultOnly : DbFaults :=
  { queryFault := false, commitFault := false, refreshFault := true }

def postX : FlowerPost :=
  { id := "x", image_paths := ["i"], platforms := [.naver] }

/-- C9 as stated is false: when `session.refresh` fails after a
successful commit, `save` rolls back and raises `RepositoryError` — yet
the committed state HAS changed: the inserted row persists. -/
theorem C9_counterexample :
    isError (SQLAlchemyPostRepository.save dbEmpty refreshFaultOnly postX).1
      = true ∧
    (SQLAlchemyPostRepository.save dbEmpty refreshFaultOnly postX).2.committed
      ≠ dbEmpty.committed := by
  exact ⟨rfl, by decide⟩

/-- C9 (amended): every exit of save/update/delete leaves the session
with no pending changes (rollback precedes every raise); when the
exception occurs at or before commit — always, for delete — the
committed state is unchanged; and `update` raises `RepositoryError`
rather than silently succeeding when the id does not exist.  After a
successful commit a refresh failure still raises, but the committed
write remains (counterexample). -/
theorem C9_amended_repository :
    (∀ (db : DbSession) (f : DbFaults) (p : FlowerPost),
      db.pending = db.committed →
      ((SQLAlchemyPostRepository.save db f p).2.pending
          = (SQLAlchemyPostRepository.save db f p).2.committed ∧
        (SQLAlchemyPostRepository.update db f p).2.pending
          = (SQLAlchemyPostRepository.update db f p).2.committed)) ∧
    (∀ (db : DbSession) (f : DbFaults) (i : String),
      db.pending = db.committed →
      (SQLAlchemyPostRepository.delete db f i).2.pending
        = (SQLAlchemyPostRepository.delete db f i).2.committed) ∧
    (∀ (db : DbSession) (f : DbFaults) (p : FlowerPost),
      f.refreshFault = false →
      isError (SQLAlchemyPostRepository.save db f p).1 = true →
      (SQLAlchemyPostRepository.save db f p).2.committed = db.committed) ∧
    (∀ (db : DbSession) (f : DbFaults) (p : FlowerPost),
      f.refreshFault = false →
      isError (SQLAlchemyPostRepository.update db f p).1 = true →
      (SQLAlchemyPostRepository.update db f p).2.committed
        = db.committed) ∧
    (∀ (db : DbSession) (f : DbFaults) (i : String),
      isError (SQLAlchemyPostRepository.delete db f i).1 = true →
      (SQLAlchemyPostRepository.delete db f i).2.committed
        = db.committed) ∧
    (∀ (db : DbSession) (f : DbFaults) (p : FlowerPost),
      f.queryFault = false →
      Store.find db.pending p.id = none →
      isError (SQLAlchemyPostRepository.update db f p).1 = true) := by
  refine ⟨?_, ?_, ?_, ?_, ?_, ?_⟩
  · intro db f p hdb
    constructor
    · unfold SQLAlchemyPostRepository.save DbSession.commitOp
        DbSession.refreshOp DbSession.rollback
      by_cases hc : f.commitFault <;> by_cases hr : f.refreshFault <;>
        simp [hc, hr]
    · unfold SQLAlchemyPostRepository.update DbSession.queryFirst
        DbSession.commitOp DbSession.refreshOp DbSession.rollback
      by_cases hq : f.queryFault <;> by_cases hc : f.commitFault <;>
        by_cases hr : f.refreshFault <;>
        cases hfind : Store.find db.pending p.id <;>
        simp [hq, hc, hr, hfind]
  · intro db f i hdb
    unfold SQLAlchemyPostRepository.delete DbSession.queryFirst
      DbSession.commitOp DbSession.rollback
    by_cases hq : f.queryFault <;> by_cases hc : f.commitFault <;>
      cases hfind : Store.find db.pending i <;>
      simp [hq, hc, hfind, hdb]
  · intro db f p hr herr
    unfold SQLAlchemyPostRepository.save DbSession.commitOp
      DbSession.refreshOp DbSession.rollback at herr ⊢
    by_cases hc : f.commitFault <;> simp [hc, hr, isError] at herr ⊢
  · intro db f p hr herr
    unfold SQLAlchemyPostRepository.update DbSession.queryFirst
      DbSession.commitOp DbSession.refreshOp DbSession.rollback at herr ⊢
    by_cases hq : f.queryFault <;> by_cases hc : f.commitFault <;>
      cases hfind : Store.find db.pending p.id <;>
      simp [hq, hc, hr, hfind, isError] at herr ⊢
  · intro db f i herr
    unfold SQLAlchemyPostRepository.delete DbSession.queryFirst
      DbSession.commitOp DbSession.rollback at herr ⊢
    by_cases hq : f.queryFault <;> by_cases hc : f.commitFault <;>
      cases hfind : Store.find db.pending i <;>
      simp [hq, hc, hfind, isError] at herr ⊢
  · intro db f p hq hfind
    unfold SQLAlchemyPostRepository.update DbSession.queryFirst
    simp [hq, hfind, isError]

theorem C9_amended_witness :
    ((SQLAlchemyPostRepository.save dbEmpty noFaults postX).2.pending
      = (SQLAlchemyPostRepository.save dbEmpty noFaults postX).2.committed) ∧
    isError (SQLAlchemyPostRepository.update dbEmpty noFaults postX).1
      = true :=
  ⟨(C9_amended_repository.1 dbEmpty noFaults postX rfl).1,
   C9_amended_repository.2.2.2.2.2 dbEmpty noFaults postX rfl rfl⟩

end Claims

end FlowerBlog
